import Mathlib

/-!
# go-forecast: a shallow embedding of `main.go`

The program is a command-line weather lookup.  It reads three configuration
values, takes the place query from the command line, asks a geocoding service
for candidates, and, when exactly one candidate comes back, asks a forecast
service for a time series of which it prints the first entry.

Everything the program obtains from outside (command line, configuration file,
HTTP transport, the JSON decoder, the rendering of a `float32`) is collected in
one record `Env`.  Everything the program does to the outside (lines written,
requests sent) is collected in a `World` value that is threaded through the
functions in program order.  The functions below follow `main.go` statement
by statement and keep its names.
-/

namespace GoForecast

/-! ## Values -/

/-- Contents of a Go byte slice. -/
abbrev Bytes := List UInt8

/-- A Go float32, kept as its IEEE-754 binary32 bit pattern.  The program never
computes with these values; it only copies and prints them. -/
structure float32 where
  bits : Nat
deriving DecidableEq, Repr

/-- An error value made by a library (net/http, io, encoding/json, viper). -/
structure LibError where
  text : String
deriving DecidableEq, Repr

/-- A Go error value as this program can see one: either handed over by a
library call, or made on the spot by errors.New.  A value made by errors.New
is never equal to one that a library returned. -/
inductive GoError where
  | lib (e : LibError)
  | New (text : String)
deriving DecidableEq, Repr

/-- The struct GeoCode of main.go, lines 20-24. -/
structure GeoCode where
  Lat : String
  Lon : String
  Display_name : String
deriving DecidableEq, Repr

/-- The struct Forecast of main.go, lines 26-31. -/
structure Forecast where
  Timestamp : String
  AirTemperature : float32
  WindSpeed : float32
  Precipitation : float32
deriving DecidableEq, Repr

/-- The composite literal Forecast{} : every field has its zero value. -/
def Forecast.zero : Forecast :=
  { Timestamp := "", AirTemperature := ⟨0⟩, WindSpeed := ⟨0⟩, Precipitation := ⟨0⟩ }

/-- Innermost struct of ApiResponse: data.instant.details (lines 77-80). -/
structure InstantDetails where
  Air_temperature : float32
  Wind_speed : float32
deriving DecidableEq, Repr

/-- The struct data.instant (lines 76-81). -/
structure Instant where
  Details : InstantDetails
deriving DecidableEq, Repr

/-- Innermost struct data.next_1_hours.details (lines 83-85). -/
structure NextDetails where
  Precipitation_amount : float32
deriving DecidableEq, Repr

/-- The struct data.next_1_hours (lines 82-86). -/
structure Next_1_hours where
  Details : NextDetails
deriving DecidableEq, Repr

/-- The struct Data of one time-series entry (lines 75-87). -/
structure EntryData where
  Instant : Instant
  Next_1_hours : Next_1_hours
deriving DecidableEq, Repr

/-- One element of properties.timeseries (lines 73-88). -/
structure Entry where
  Time : String
  Data : EntryData
deriving DecidableEq, Repr

/-- The struct Properties (lines 72-89). -/
structure Properties where
  Timeseries : List Entry
deriving DecidableEq, Repr

/-- The local type ApiResponse of fetchForecast (lines 71-90). -/
structure ApiResponse where
  Properties : Properties
deriving DecidableEq, Repr

/-! ## The outside world -/

/-- An http.Request as far as the program touches it: method, target and the
header fields it has set. -/
structure Request where
  Method : String
  URL : String
  Header : List (String × String)
deriving DecidableEq, Repr

/-- The request that http.NewRequest builds on success: no header field set. -/
def newRequest (method url : String) : Request :=
  { Method := method, URL := url, Header := [] }

/-- Header.Set: replace whatever was stored under the key by the one value. -/
def Request.setHeader (req : Request) (key value : String) : Request :=
  { req with Header := (req.Header.filter (fun kv => kv.1 != key)) ++ [(key, value)] }

/-- An http.Response as far as the program touches it: what io.ReadAll on its
body yields, the bytes and the read error if any.  The status code is not part
of it because the program never looks at it. -/
structure Response where
  Body : Bytes
  ReadErr : Option LibError
deriving DecidableEq, Repr

/-- Everything the program receives from outside.

* Args is os.Args.
* ReadInConfig is viper.ReadInConfig for the file named by SetConfigFile;
  GetString is viper.GetString afterwards.
* NewRequest is the validity check of http.NewRequest (method, target): none
  when the request can be built.
* Do is client.Do: the answer may depend on the requests sent earlier in the
  run, given oldest first.
* UnmarshalGeoCodes and UnmarshalApiResponse are json.Unmarshal into a
  nil slice of GeoCode and into a zero ApiResponse: the value left in the target
  and the error, if any.
* FormatFloat32 is the text the fmt package produces for a float32 under the
  verb v. -/
structure Env where
  Args : List String
  ReadInConfig : String → Option LibError
  GetString : String → String
  NewRequest : String → String → Option LibError
  Do : List Request → Request → Except LibError Response
  UnmarshalGeoCodes : Bytes → List GeoCode × Option LibError
  UnmarshalApiResponse : Bytes → ApiResponse × Option LibError
  FormatFloat32 : float32 → String

/-- A function call of the program, with its arguments, as recorded on entry. -/
inductive Call where
  | fetch (userAgent url : String)
  | fetchGeoCodeList (userAgent geoCodeApiUrl city : String)
  | fetchForecast (userAgent forecastApiUrl lat lon : String)
deriving DecidableEq, Repr

/-- Everything the program has done to the outside so far, oldest first.

* stdout: one element per fmt.Println call, the text before the newline.
* stderr: one element per log.Fatalln call, the message (the logger's date
  and time in front of it are left out).
* requests: the requests handed to client.Do.
* calls: the calls of fetch, fetchGeoCodeList and fetchForecast. -/
structure World where
  stdout : List String := []
  stderr : List String := []
  requests : List Request := []
  calls : List Call := []
deriving DecidableEq, Repr

/-- How a run of main ends. -/
inductive Exit where
  | returned
  | fatal
  | panicked
deriving DecidableEq, Repr

/-- A finished run: how it ended and what it did. -/
structure Run where
  exit : Exit
  world : World
deriving DecidableEq, Repr

/-- The call fmt.Println(s) with one string argument. -/
def Println (s : String) (w : World) : World :=
  { w with stdout := w.stdout ++ [s] }

/-- The call log.Fatalln(msg): write the message to standard error, then
os.Exit(1). -/
def Fatalln (msg : String) (w : World) : Run :=
  { exit := .fatal, world := { w with stderr := w.stderr ++ [msg] } }

/-- Record a function entry. -/
def World.enter (w : World) (c : Call) : World :=
  { w with calls := w.calls ++ [c] }

/-! ## fmt.Sprintf -/

/-- An operand of Sprintf: the program passes strings and float32 values. -/
inductive Arg where
  | str (s : String)
  | f32 (x : float32)
deriving DecidableEq, Repr

/-- Text and Go type name of an operand, as used in fmt's diagnostics. -/
def Arg.describe (fmtFloat : float32 → String) : Arg → String
  | .str s => "string=" ++ s
  | .f32 x => "float32=" ++ fmtFloat x

/-- One directive applied to one operand.  Modelled verbs: s and v on a string
give the string itself, v on a float32 gives the fmt rendering.  Any other pair
is outside the fragment the program uses and is rendered as fmt's bad-verb
notice. -/
def formatArg (fmtFloat : float32 → String) (verb : Char) (a : Arg) : String :=
  match a with
  | .str s =>
    if verb = 's' ∨ verb = 'v' then s
    else "%!" ++ String.singleton verb ++ "(" ++ a.describe fmtFloat ++ ")"
  | .f32 x =>
    if verb = 'v' then fmtFloat x
    else "%!" ++ String.singleton verb ++ "(" ++ a.describe fmtFloat ++ ")"

/-- Scan of the format: literal characters are copied, a directive consumes the
next operand, operands are copied in as they are and never scanned again. -/
def sprintfAux (fmtFloat : float32 → String) : List Char → List Arg → String
  | [], [] => ""
  | [], a :: as =>
    "%!(EXTRA " ++ ", ".intercalate ((a :: as).map (Arg.describe fmtFloat)) ++ ")"
  | ['%'], _ => "%!(NOVERB)"
  | '%' :: '%' :: cs, as => "%" ++ sprintfAux fmtFloat cs as
  | '%' :: c :: cs, [] => "%!" ++ String.singleton c ++ "(MISSING)" ++ sprintfAux fmtFloat cs []
  | '%' :: c :: cs, a :: as => formatArg fmtFloat c a ++ sprintfAux fmtFloat cs as
  | c :: cs, as => String.singleton c ++ sprintfAux fmtFloat cs as

/-- The call fmt.Sprintf(format, args...), for formats without flags or widths. -/
def Sprintf (env : Env) (format : String) (args : List Arg) : String :=
  sprintfAux env.FormatFloat32 format.toList args

/-! ## The program -/

/-- Lines 33-53: one GET with the identification header; the body or the
first error met. -/
def fetch (env : Env) (userAgent url : String) (w : World) :
    (Bytes × Option GoError) × World :=
  let w := w.enter (.fetch userAgent url)
  -- req, err := http.NewRequest("GET", url, nil)
  match env.NewRequest "GET" url with
  | some err => (([], some (.lib err)), w)
  | none =>
    let req := newRequest "GET" url
    -- req.Header.Set("User-Agent", userAgent)
    let req := req.setHeader "User-Agent" userAgent
    -- resp, err := client.Do(req)
    let sent := w.requests
    let w := { w with requests := w.requests ++ [req] }
    match env.Do sent req with
    | .error err => (([], some (.lib err)), w)
    | .ok resp =>
      -- body, err := io.ReadAll(resp.Body)
      match resp.ReadErr with
      | some err => (([], some (.lib err)), w)
      | none => ((resp.Body, none), w)

/-- Lines 55-67. -/
def fetchGeoCodeList (env : Env) (userAgent geoCodeApiUrl city : String) (w : World) :
    (List GeoCode × Option GoError) × World :=
  let w := w.enter (.fetchGeoCodeList userAgent geoCodeApiUrl city)
  let ((body, err), w) :=
    fetch env userAgent (Sprintf env "%s?q=%s" [.str geoCodeApiUrl, .str city]) w
  match err with
  | some err => (([], some err), w)
  | none =>
    let (resultList, jsonError) := env.UnmarshalGeoCodes body
    match jsonError with
    | some jsonError => (([], some (.lib jsonError)), w)
    | none => ((resultList, none), w)

/-- Lines 69-110. -/
def fetchForecast (env : Env) (userAgent forecastApiUrl lat lon : String) (w : World) :
    (Forecast × Option GoError) × World :=
  let w := w.enter (.fetchForecast userAgent forecastApiUrl lat lon)
  let ((body, err), w) :=
    fetch env userAgent
      (Sprintf env "%s?lat=%s&lon=%s" [.str forecastApiUrl, .str lat, .str lon]) w
  match err with
  | some err => ((Forecast.zero, some err), w)
  | none =>
    let (apiResponse, jsonError) := env.UnmarshalApiResponse body
    if h : jsonError ≠ none ∨ apiResponse.Properties.Timeseries.length = 0 then
      ((Forecast.zero, some (.New "Unexpected API format")), w)
    else
      have h0 : 0 < apiResponse.Properties.Timeseries.length := by omega
      (({ Timestamp := apiResponse.Properties.Timeseries[0].Time
          WindSpeed := apiResponse.Properties.Timeseries[0].Data.Instant.Details.Wind_speed
          Precipitation :=
            apiResponse.Properties.Timeseries[0].Data.Next_1_hours.Details.Precipitation_amount
          AirTemperature :=
            apiResponse.Properties.Timeseries[0].Data.Instant.Details.Air_temperature },
        none), w)

/-- Lines 159-161. -/
def floatToString (env : Env) (data : float32) : String :=
  Sprintf env "%v" [.f32 data]

/-- Lines 163-168. -/
def getLocationParameter (env : Env) : String × Option GoError :=
  if h : env.Args.length < 2 then
    ("", some (.New "Missing parameter"))
  else
    have h1 : 1 < env.Args.length := by omega
    (env.Args[1], none)

/-- Lines 112-157.  The index expression geoCodeList[0] is modelled with its
run-time check: out of range ends the run in Exit.panicked. -/
def main (env : Env) : Run :=
  let w : World := {}
  -- viper.SetConfigFile(".env"); err := viper.ReadInConfig()
  match env.ReadInConfig ".env" with
  | some _ => Fatalln "Error reading .env file" w
  | none =>
    let userAgent := env.GetString "USERAGENT"
    let geoCodeApiUrl := env.GetString "GEOCODEAPIURL"
    let forecastApiUrl := env.GetString "FORECASTAPIURL"
    let (city, err) := getLocationParameter env
    match err with
    | some _ =>
      { exit := .returned
        world := Println
          "Missing parameter. Try running the following: ./weather \"Stockholm, Stockholms kommun, Stockholm County, 111 29, Sweden\""
          w }
    | none =>
      let ((geoCodeList, err), w) := fetchGeoCodeList env userAgent geoCodeApiUrl city w
      match err with
      | some _ => Fatalln "An error occured while fetching geo codes" w
      | none =>
        if geoCodeList.length = 0 then
          { exit := .returned
            world := Println "Found no matches, try again with a different parameter." w }
        else if geoCodeList.length > 1 then
          let w := Println
            "Found multiple matches for your search. Try again with one of the following:" w
          let w := geoCodeList.foldl (fun w val => Println val.Display_name w) w
          { exit := .returned, world := w }
        else
          match geoCodeList[0]? with
          | none => { exit := .panicked, world := w }
          | some geoCode =>
            let ((forecast, err), w) :=
              fetchForecast env userAgent forecastApiUrl geoCode.Lat geoCode.Lon w
            match err with
            | some _ => Fatalln "An error occured while fetching forecast" w
            | none =>
              let w := Println (Sprintf env "Expected forecast for %s" [.str city]) w
              let w := Println (Sprintf env "At %s" [.str forecast.Timestamp]) w
              let w := Println
                (Sprintf env "Temp: %s°C" [.str (floatToString env forecast.AirTemperature)]) w
              let w := Println
                (Sprintf env "Windspeed: %sm/s" [.str (floatToString env forecast.WindSpeed)]) w
              let w := Println
                (Sprintf env "Precipitation within the next hour: %smm"
                  [.str (floatToString env forecast.Precipitation)]) w
              { exit := .returned, world := w }


/-! ## Sample environments

Concrete environments on which the theorems below are instantiated.  The byte
lists are the ASCII codes of the JSON texts quoted in the comments. -/

/-- The candidate of the sample geocoding answer. -/
def stockholm : GeoCode :=
  { Lat := "59.33", Lon := "18.06", Display_name := "Stockholm" }

/-- The bytes of
[{"lat":"59.33","lon":"18.06","display_name":"Stockholm"}] -/
def geoBody : Bytes :=
  [91, 123, 34, 108, 97, 116, 34, 58, 34, 53, 57, 46, 51, 51, 34, 44, 34, 108, 111,
   110, 34, 58, 34, 49, 56, 46, 48, 54, 34, 44, 34, 100, 105, 115, 112, 108, 97, 121,
   95, 110, 97, 109, 101, 34, 58, 34, 83, 116, 111, 99, 107, 104, 111, 108, 109, 34,
   125, 93]

/-- Two candidates for an ambiguous query. -/
def twoCandidates : List GeoCode :=
  [ { Lat := "59.33", Lon := "18.06", Display_name := "Stockholm, Sweden" },
    { Lat := "42.90", Lon := "-95.15", Display_name := "Stockholm, Iowa" } ]

/-- The bytes of
[{"lat":"59.33","lon":"18.06","display_name":"Stockholm, Sweden"},{"lat":"42.90","lon":"-95.15","display_name":"Stockholm, Iowa"}] -/
def twoBody : Bytes :=
  [91, 123, 34, 108, 97, 116, 34, 58, 34, 53, 57, 46, 51, 51, 34, 44, 34, 108, 111,
   110, 34, 58, 34, 49, 56, 46, 48, 54, 34, 44, 34, 100, 105, 115, 112, 108, 97, 121,
   95, 110, 97, 109, 101, 34, 58, 34, 83, 116, 111, 99, 107, 104, 111, 108, 109, 44,
   32, 83, 119, 101, 100, 101, 110, 34, 125, 44, 123, 34, 108, 97, 116, 34, 58, 34, 52,
   50, 46, 57, 48, 34, 44, 34, 108, 111, 110, 34, 58, 34, 45, 57, 53, 46, 49, 53, 34,
   44, 34, 100, 105, 115, 112, 108, 97, 121, 95, 110, 97, 109, 101, 34, 58, 34, 83,
   116, 111, 99, 107, 104, 111, 108, 109, 44, 32, 73, 111, 119, 97, 34, 125, 93]

/-- The bytes of [] -/
def noneBody : Bytes :=
  [91, 93]

/-- The entry of the sample forecast answer: 5.2 and 3.1 as binary32 bit
patterns 0x40A66666 and 0x40466666, and 0.0 as 0. -/
def noonEntry : Entry :=
  { Time := "2024-01-01T12:00:00Z"
    Data :=
      { Instant := { Details := { Air_temperature := ⟨1084647014⟩, Wind_speed := ⟨1078355558⟩ } }
        Next_1_hours := { Details := { Precipitation_amount := ⟨0⟩ } } } }

/-- The bytes of
{"properties":{"timeseries":[{"time":"2024-01-01T12:00:00Z","data":{"instant":{"details":{"air_temperature":5.2,"wind_speed":3.1}},"next_1_hours":{"details":{"precipitation_amount":0.0}}}}]}} -/
def forecastBody : Bytes :=
  [123, 34, 112, 114, 111, 112, 101, 114, 116, 105, 101, 115, 34, 58, 123, 34, 116,
   105, 109, 101, 115, 101, 114, 105, 101, 115, 34, 58, 91, 123, 34, 116, 105, 109,
   101, 34, 58, 34, 50, 48, 50, 52, 45, 48, 49, 45, 48, 49, 84, 49, 50, 58, 48, 48, 58,
   48, 48, 90, 34, 44, 34, 100, 97, 116, 97, 34, 58, 123, 34, 105, 110, 115, 116, 97,
   110, 116, 34, 58, 123, 34, 100, 101, 116, 97, 105, 108, 115, 34, 58, 123, 34, 97,
   105, 114, 95, 116, 101, 109, 112, 101, 114, 97, 116, 117, 114, 101, 34, 58, 53, 46,
   50, 44, 34, 119, 105, 110, 100, 95, 115, 112, 101, 101, 100, 34, 58, 51, 46, 49,
   125, 125, 44, 34, 110, 101, 120, 116, 95, 49, 95, 104, 111, 117, 114, 115, 34, 58,
   123, 34, 100, 101, 116, 97, 105, 108, 115, 34, 58, 123, 34, 112, 114, 101, 99, 105,
   112, 105, 116, 97, 116, 105, 111, 110, 95, 97, 109, 111, 117, 110, 116, 34, 58, 48,
   46, 48, 125, 125, 125, 125, 93, 125, 125]

/-- The bytes of {"properties":{"timeseries":[]}} -/
def emptySeriesBody : Bytes :=
  [123, 34, 112, 114, 111, 112, 101, 114, 116, 105, 101, 115, 34, 58, 123, 34, 116,
   105, 109, 101, 115, 101, 114, 105, 101, 115, 34, 58, 91, 93, 125, 125]

/-- The decoder of candidate lists on the sample bodies; any other body is
reported as malformed. -/
def sampleUnmarshalGeoCodes (b : Bytes) : List GeoCode × Option LibError :=
  if b = geoBody then ([stockholm], none)
  else if b = twoBody then (twoCandidates, none)
  else if b = noneBody then ([], none)
  else ([], some ⟨"json: cannot unmarshal into Go value of type []main.GeoCode"⟩)

/-- The decoder of forecast answers on the sample bodies; any other body is
reported as malformed and leaves the zero value. -/
def sampleUnmarshalApiResponse (b : Bytes) : ApiResponse × Option LibError :=
  if b = forecastBody then (⟨⟨[noonEntry]⟩⟩, none)
  else if b = emptySeriesBody then (⟨⟨[]⟩⟩, none)
  else (⟨⟨[]⟩⟩, some ⟨"json: cannot unmarshal into Go value of type main.ApiResponse"⟩)

/-- The rendering of the three sample values under the verb v. -/
def sampleFormatFloat32 (x : float32) : String :=
  if x.bits = 1084647014 then "5.2"
  else if x.bits = 1078355558 then "3.1"
  else if x.bits = 0 then "0"
  else "NaN"

/-- The configuration file of the samples. -/
def sampleGetString (key : String) : String :=
  if key = "USERAGENT" then "go-forecast/1.0"
  else if key = "GEOCODEAPIURL" then "https://geo.example/search"
  else if key = "FORECASTAPIURL" then "https://weather.example/compact"
  else ""

/-- A run for the query Stockholm: one candidate, one forecast entry. -/
def sampleEnv : Env :=
  { Args := ["./weather", "Stockholm"]
    ReadInConfig := fun _ => none
    GetString := sampleGetString
    NewRequest := fun _ _ => none
    Do := fun _ req =>
      if req.URL = "https://geo.example/search?q=Stockholm" then .ok ⟨geoBody, none⟩
      else if req.URL = "https://weather.example/compact?lat=59.33&lon=18.06" then
        .ok ⟨forecastBody, none⟩
      else .error ⟨"no such host"⟩
    UnmarshalGeoCodes := sampleUnmarshalGeoCodes
    UnmarshalApiResponse := sampleUnmarshalApiResponse
    FormatFloat32 := sampleFormatFloat32 }

/-- The geocoding service knows no candidate; whatever else is asked is answered
with an empty time series. -/
def noMatchEnv : Env :=
  { sampleEnv with
    Do := fun _ req =>
      if req.URL = "https://geo.example/search?q=Stockholm" then .ok ⟨noneBody, none⟩
      else .ok ⟨emptySeriesBody, none⟩ }

/-- The geocoding service knows two candidates. -/
def twoMatchEnv : Env :=
  { sampleEnv with
    Do := fun _ req =>
      if req.URL = "https://geo.example/search?q=Stockholm" then .ok ⟨twoBody, none⟩
      else .error ⟨"no such host"⟩ }

/-- One candidate, and a forecast answer with an empty time series. -/
def emptySeriesEnv : Env :=
  { sampleEnv with
    Do := fun _ req =>
      if req.URL = "https://geo.example/search?q=Stockholm" then .ok ⟨geoBody, none⟩
      else .ok ⟨emptySeriesBody, none⟩ }

/-- No place query on the command line. -/
def noArgEnv : Env :=
  { sampleEnv with Args := ["./weather"] }

/-- No place query on the command line and no readable configuration file. -/
def noConfigEnv : Env :=
  { sampleEnv with
    Args := ["./weather"]
    ReadInConfig := fun _ => some ⟨"open .env: no such file or directory"⟩ }

/-- No network: every request fails in transport. -/
def offlineEnv : Env :=
  { sampleEnv with Do := fun _ _ => .error ⟨"dial tcp: network is unreachable"⟩ }

/-! ## Auxiliary facts -/

theorem Sprintf_q (env : Env) (base city : String) :
    Sprintf env "%s?q=%s" [.str base, .str city] = base ++ "?q=" ++ city := by
  simp only [Sprintf, sprintfAux, formatArg]
  apply String.ext
  simp [String.data_append]

theorem Sprintf_lat_lon (env : Env) (base lat lon : String) :
    Sprintf env "%s?lat=%s&lon=%s" [.str base, .str lat, .str lon]
      = base ++ "?lat=" ++ lat ++ "&lon=" ++ lon := by
  simp only [Sprintf, sprintfAux, formatArg]
  apply String.ext
  simp [String.data_append]

theorem floatToString_eq (env : Env) (x : float32) :
    floatToString env x = env.FormatFloat32 x := by
  simp [floatToString, Sprintf, sprintfAux, formatArg]

theorem Sprintf_expected (env : Env) (s : String) :
    Sprintf env "Expected forecast for %s" [.str s] = "Expected forecast for " ++ s := by
  simp only [Sprintf, sprintfAux, formatArg]
  apply String.ext
  simp [String.data_append]

theorem Sprintf_at (env : Env) (s : String) :
    Sprintf env "At %s" [.str s] = "At " ++ s := by
  simp only [Sprintf, sprintfAux, formatArg]
  apply String.ext
  simp [String.data_append]

theorem Sprintf_temp (env : Env) (s : String) :
    Sprintf env "Temp: %s°C" [.str s] = "Temp: " ++ s ++ "°C" := by
  simp only [Sprintf, sprintfAux, formatArg]
  apply String.ext
  simp [String.data_append]

theorem Sprintf_wind (env : Env) (s : String) :
    Sprintf env "Windspeed: %sm/s" [.str s] = "Windspeed: " ++ s ++ "m/s" := by
  simp only [Sprintf, sprintfAux, formatArg]
  apply String.ext
  simp [String.data_append]

theorem Sprintf_precipitation (env : Env) (s : String) :
    Sprintf env "Precipitation within the next hour: %smm" [.str s]
      = "Precipitation within the next hour: " ++ s ++ "mm" := by
  simp only [Sprintf, sprintfAux, formatArg]
  apply String.ext
  simp [String.data_append]

theorem getLocationParameter_of_args (env : Env) (prog city : String) (rest : List String)
    (hargs : env.Args = prog :: city :: rest) :
    getLocationParameter env = (city, none) := by
  simp [getLocationParameter, hargs]

theorem getLocationParameter_short (env : Env) (h : env.Args.length < 2) :
    getLocationParameter env = ("", some (.New "Missing parameter")) := by
  simp [getLocationParameter, h]

/-- The request fetch hands to client.Do. -/
theorem setHeader_newRequest (method url key value : String) :
    (newRequest method url).setHeader key value
      = { Method := method, URL := url, Header := [(key, value)] } := by
  simp [newRequest, Request.setHeader]

theorem fetch_calls (env : Env) (ua url : String) (w : World) :
    (fetch env ua url w).2.calls = w.calls ++ [.fetch ua url] := by
  simp only [fetch, World.enter]
  split
  · rfl
  · split
    · rfl
    · split <;> rfl

theorem fetch_stdout (env : Env) (ua url : String) (w : World) :
    (fetch env ua url w).2.stdout = w.stdout := by
  simp only [fetch, World.enter]
  split
  · rfl
  · split
    · rfl
    · split <;> rfl

theorem fetch_stderr (env : Env) (ua url : String) (w : World) :
    (fetch env ua url w).2.stderr = w.stderr := by
  simp only [fetch, World.enter]
  split
  · rfl
  · split
    · rfl
    · split <;> rfl

theorem fetch_requests (env : Env) (ua url : String) (w : World) :
    (fetch env ua url w).2.requests
      = w.requests ++
          (if env.NewRequest "GET" url = none then
            [{ Method := "GET", URL := url, Header := [("User-Agent", ua)] }]
           else []) := by
  simp only [fetch, World.enter, setHeader_newRequest]
  split
  · next err h => simp [h]
  · next h =>
    simp only [h, if_true]
    split
    · rfl
    · split <;> rfl

/-- The answer of fetch depends on the world only through the requests sent so far. -/
theorem fetch_fst_congr (env : Env) (ua url : String) (w w' : World)
    (h : w.requests = w'.requests) :
    (fetch env ua url w).1 = (fetch env ua url w').1 := by
  simp only [fetch, World.enter, h]
  split
  · rfl
  · split
    · rfl
    · split <;> rfl

theorem fetch_error_is_lib (env : Env) (ua url : String) (w : World) (err : GoError)
    (h : (fetch env ua url w).1.2 = some err) :
    (∃ e, err = .lib e) ∧ (fetch env ua url w).1.1 = [] := by
  unfold fetch at h ⊢
  cases hN : env.NewRequest "GET" url with
  | some e => simp [hN] at h ⊢; exact ⟨e, h.symm⟩
  | none =>
    simp only [hN] at h ⊢
    cases hD : env.Do (w.enter (.fetch ua url)).requests
        ((newRequest "GET" url).setHeader "User-Agent" ua) with
    | error e => simp [hD] at h ⊢; exact ⟨e, h.symm⟩
    | ok resp =>
      simp only [hD] at h ⊢
      cases hR : resp.ReadErr with
      | some e => simp [hR] at h ⊢; exact ⟨e, h.symm⟩
      | none => simp [hR] at h

theorem fetchGeoCodeList_snd (env : Env) (ua base city : String) (w : World) :
    (fetchGeoCodeList env ua base city w).2
      = (fetch env ua (base ++ "?q=" ++ city) (w.enter (.fetchGeoCodeList ua base city))).2 := by
  simp only [fetchGeoCodeList, Sprintf_q]
  split
  · rfl
  · split <;> rfl

theorem fetchGeoCodeList_fst (env : Env) (ua base city : String) (w : World) :
    (fetchGeoCodeList env ua base city w).1
      = match (fetch env ua (base ++ "?q=" ++ city) w).1 with
        | (_, some err) => ([], some err)
        | (body, none) =>
          match env.UnmarshalGeoCodes body with
          | (_, some jsonError) => ([], some (.lib jsonError))
          | (resultList, none) => (resultList, none) := by
  have hc := fetch_fst_congr env ua (base ++ "?q=" ++ city)
    (w.enter (.fetchGeoCodeList ua base city)) w rfl
  simp only [fetchGeoCodeList, Sprintf_q]
  rw [← hc]
  rcases fetch env ua (base ++ "?q=" ++ city) (w.enter (.fetchGeoCodeList ua base city))
    with ⟨⟨body, err⟩, w2⟩
  cases err with
  | some e => rfl
  | none =>
    cases hU : env.UnmarshalGeoCodes body with
    | mk l je => cases je <;> simp [hU]

theorem fetchForecast_snd (env : Env) (ua base lat lon : String) (w : World) :
    (fetchForecast env ua base lat lon w).2
      = (fetch env ua (base ++ "?lat=" ++ lat ++ "&lon=" ++ lon)
          (w.enter (.fetchForecast ua base lat lon))).2 := by
  simp only [fetchForecast, Sprintf_lat_lon]
  split
  · rfl
  · split <;> rfl

theorem fetchForecast_fst (env : Env) (ua base lat lon : String) (w : World) :
    (fetchForecast env ua base lat lon w).1
      = match (fetch env ua (base ++ "?lat=" ++ lat ++ "&lon=" ++ lon) w).1 with
        | (_, some err) => (Forecast.zero, some err)
        | (body, none) =>
          match env.UnmarshalApiResponse body with
          | (_, some _) => (Forecast.zero, some (.New "Unexpected API format"))
          | (apiResponse, none) =>
            match apiResponse.Properties.Timeseries with
            | [] => (Forecast.zero, some (.New "Unexpected API format"))
            | e :: _ =>
              ({ Timestamp := e.Time
                 AirTemperature := e.Data.Instant.Details.Air_temperature
                 WindSpeed := e.Data.Instant.Details.Wind_speed
                 Precipitation := e.Data.Next_1_hours.Details.Precipitation_amount }, none) := by
  have hc := fetch_fst_congr env ua (base ++ "?lat=" ++ lat ++ "&lon=" ++ lon)
    (w.enter (.fetchForecast ua base lat lon)) w rfl
  rw [← hc]
  rcases hF : fetch env ua (base ++ "?lat=" ++ lat ++ "&lon=" ++ lon)
    (w.enter (.fetchForecast ua base lat lon)) with ⟨⟨body, err⟩, w2⟩
  unfold fetchForecast
  simp only [Sprintf_lat_lon, hF]
  cases err with
  | some e => rfl
  | none =>
    rcases hU : env.UnmarshalApiResponse body with ⟨api, je⟩
    simp only [hU]
    cases je with
    | some e => simp
    | none =>
      obtain ⟨⟨ts⟩⟩ := api
      cases ts <;> simp

theorem foldl_Println (l : List GeoCode) (w : World) :
    l.foldl (fun w val => Println val.Display_name w) w
      = { w with stdout := w.stdout ++ l.map (fun val => val.Display_name) } := by
  induction l generalizing w with
  | nil => simp
  | cons g l ih =>
    rw [List.foldl_cons, ih]
    simp [Println]

theorem main_config_error (env : Env) (e : LibError) (hcfg : env.ReadInConfig ".env" = some e) :
    main env = Fatalln "Error reading .env file" {} := by
  simp [main, hcfg]

theorem main_missing_arg (env : Env) (hcfg : env.ReadInConfig ".env" = none)
    (hargs : env.Args.length < 2) :
    main env =
      { exit := .returned
        world := Println
          "Missing parameter. Try running the following: ./weather \"Stockholm, Stockholms kommun, Stockholm County, 111 29, Sweden\""
          {} } := by
  simp [main, hcfg, getLocationParameter_short env hargs]

theorem main_geo_error (env : Env) (city : String) (l : List GeoCode) (e : GoError)
    (hcfg : env.ReadInConfig ".env" = none)
    (hcity : getLocationParameter env = (city, none))
    (hgeo : (fetchGeoCodeList env (env.GetString "USERAGENT") (env.GetString "GEOCODEAPIURL")
      city {}).1 = (l, some e)) :
    main env = Fatalln "An error occured while fetching geo codes"
      (fetchGeoCodeList env (env.GetString "USERAGENT") (env.GetString "GEOCODEAPIURL")
        city {}).2 := by
  simp [main, hcfg, hcity, hgeo]

theorem main_no_match (env : Env) (city : String)
    (hcfg : env.ReadInConfig ".env" = none)
    (hcity : getLocationParameter env = (city, none))
    (hgeo : (fetchGeoCodeList env (env.GetString "USERAGENT") (env.GetString "GEOCODEAPIURL")
      city {}).1 = ([], none)) :
    main env =
      { exit := .returned
        world := Println "Found no matches, try again with a different parameter."
          (fetchGeoCodeList env (env.GetString "USERAGENT") (env.GetString "GEOCODEAPIURL")
            city {}).2 } := by
  simp [main, hcfg, hcity, hgeo]

theorem main_multi (env : Env) (city : String) (l : List GeoCode)
    (hcfg : env.ReadInConfig ".env" = none)
    (hcity : getLocationParameter env = (city, none))
    (hgeo : (fetchGeoCodeList env (env.GetString "USERAGENT") (env.GetString "GEOCODEAPIURL")
      city {}).1 = (l, none))
    (hl : 1 < l.length) :
    main env =
      { exit := .returned
        world :=
          l.foldl (fun w val => Println val.Display_name w)
            (Println
              "Found multiple matches for your search. Try again with one of the following:"
              (fetchGeoCodeList env (env.GetString "USERAGENT")
                (env.GetString "GEOCODEAPIURL") city {}).2) } := by
  have h0 : l ≠ [] := by
    intro h
    simp [h] at hl
  simp [main, hcfg, hcity, hgeo, h0, hl]

theorem main_single_error (env : Env) (city : String) (g : GeoCode) (fc : Forecast)
    (e : GoError)
    (hcfg : env.ReadInConfig ".env" = none)
    (hcity : getLocationParameter env = (city, none))
    (hgeo : (fetchGeoCodeList env (env.GetString "USERAGENT") (env.GetString "GEOCODEAPIURL")
      city {}).1 = ([g], none))
    (hfc : (fetchForecast env (env.GetString "USERAGENT") (env.GetString "FORECASTAPIURL")
      g.Lat g.Lon
      (fetchGeoCodeList env (env.GetString "USERAGENT") (env.GetString "GEOCODEAPIURL")
        city {}).2).1 = (fc, some e)) :
    main env = Fatalln "An error occured while fetching forecast"
      (fetchForecast env (env.GetString "USERAGENT") (env.GetString "FORECASTAPIURL")
        g.Lat g.Lon
        (fetchGeoCodeList env (env.GetString "USERAGENT") (env.GetString "GEOCODEAPIURL")
          city {}).2).2 := by
  simp [main, hcfg, hcity, hgeo, hfc]

theorem main_single_ok (env : Env) (city : String) (g : GeoCode) (fc : Forecast)
    (hcfg : env.ReadInConfig ".env" = none)
    (hcity : getLocationParameter env = (city, none))
    (hgeo : (fetchGeoCodeList env (env.GetString "USERAGENT") (env.GetString "GEOCODEAPIURL")
      city {}).1 = ([g], none))
    (hfc : (fetchForecast env (env.GetString "USERAGENT") (env.GetString "FORECASTAPIURL")
      g.Lat g.Lon
      (fetchGeoCodeList env (env.GetString "USERAGENT") (env.GetString "GEOCODEAPIURL")
        city {}).2).1 = (fc, none)) :
    main env =
      { exit := .returned
        world :=
          let w := (fetchForecast env (env.GetString "USERAGENT")
            (env.GetString "FORECASTAPIURL") g.Lat g.Lon
            (fetchGeoCodeList env (env.GetString "USERAGENT") (env.GetString "GEOCODEAPIURL")
              city {}).2).2
          { w with stdout := w.stdout ++
              [ "Expected forecast for " ++ city,
                "At " ++ fc.Timestamp,
                "Temp: " ++ env.FormatFloat32 fc.AirTemperature ++ "°C",
                "Windspeed: " ++ env.FormatFloat32 fc.WindSpeed ++ "m/s",
                "Precipitation within the next hour: "
                  ++ env.FormatFloat32 fc.Precipitation ++ "mm" ] } } := by
  simp [main, hcfg, hcity, hgeo, hfc, Println, Sprintf_expected, Sprintf_at, Sprintf_temp,
    Sprintf_wind, Sprintf_precipitation, floatToString_eq]

theorem getLocationParameter_err_iff (env : Env) :
    (getLocationParameter env).2 ≠ none ↔ env.Args.length < 2 := by
  unfold getLocationParameter
  split <;> simp_all

theorem fetch_env_geo (env : Env) (decode : Bytes → List GeoCode × Option LibError)
    (ua url : String) (w : World) :
    fetch { env with UnmarshalGeoCodes := decode } ua url w = fetch env ua url w := rfl

theorem fetch_env_api (env : Env) (decode : Bytes → ApiResponse × Option LibError)
    (ua url : String) (w : World) :
    fetch { env with UnmarshalApiResponse := decode } ua url w = fetch env ua url w := rfl

/-! ## The two resolvers -/

/-- C5: once fetch has delivered a body, fetchForecast reports the error
Unexpected API format exactly when decoding that body failed or the decoded
time series is empty; it is the one error value for both causes; in every other
case the error is nil. -/
theorem fetchForecast_unexpected_format_iff (env : Env) (ua base lat lon : String)
    (w : World) (body : Bytes)
    (hfetch : (fetch env ua (base ++ "?lat=" ++ lat ++ "&lon=" ++ lon) w).1 = (body, none)) :
    ((fetchForecast env ua base lat lon w).1.2 = some (.New "Unexpected API format")
      ↔ ((env.UnmarshalApiResponse body).2 ≠ none
          ∨ (env.UnmarshalApiResponse body).1.Properties.Timeseries.length = 0))
    ∧ (¬ ((env.UnmarshalApiResponse body).2 ≠ none
          ∨ (env.UnmarshalApiResponse body).1.Properties.Timeseries.length = 0)
        → (fetchForecast env ua base lat lon w).1.2 = none) := by
  rw [fetchForecast_fst, hfetch]
  rcases hU : env.UnmarshalApiResponse body with ⟨⟨⟨ts⟩⟩, je⟩
  cases je with
  | some e => simp [hU]
  | none => cases ts <;> simp [hU]

theorem fetchForecast_of_first (env : Env) (ua base lat lon : String) (w : World)
    (body : Bytes) (api : ApiResponse) (e : Entry) (later : List Entry)
    (hfetch : (fetch env ua (base ++ "?lat=" ++ lat ++ "&lon=" ++ lon) w).1 = (body, none))
    (hdec : env.UnmarshalApiResponse body = (api, none))
    (hts : api.Properties.Timeseries = e :: later) :
    (fetchForecast env ua base lat lon w).1
      = ({ Timestamp := e.Time
           AirTemperature := e.Data.Instant.Details.Air_temperature
           WindSpeed := e.Data.Instant.Details.Wind_speed
           Precipitation := e.Data.Next_1_hours.Details.Precipitation_amount }, none) := by
  rw [fetchForecast_fst, hfetch]
  simp only [hdec, hts]

/-- C6: when the body decodes without error to a non-empty time series,
fetchForecast returns the four fields of the entry at index 0 and no error; so
any two such calls whose time series start with the same entry return equal
results. -/
theorem fetchForecast_first_entry (env : Env) (ua base lat lon : String) (w : World)
    (body : Bytes) (api : ApiResponse) (e : Entry) (later : List Entry)
    (hfetch : (fetch env ua (base ++ "?lat=" ++ lat ++ "&lon=" ++ lon) w).1 = (body, none))
    (hdec : env.UnmarshalApiResponse body = (api, none))
    (hts : api.Properties.Timeseries = e :: later) :
    (fetchForecast env ua base lat lon w).1
      = ({ Timestamp := e.Time
           AirTemperature := e.Data.Instant.Details.Air_temperature
           WindSpeed := e.Data.Instant.Details.Wind_speed
           Precipitation := e.Data.Next_1_hours.Details.Precipitation_amount }, none)
    ∧ ∀ (env2 : Env) (ua2 base2 lat2 lon2 : String) (w2 : World) (body2 : Bytes)
        (api2 : ApiResponse) (later2 : List Entry),
        (fetch env2 ua2 (base2 ++ "?lat=" ++ lat2 ++ "&lon=" ++ lon2) w2).1 = (body2, none) →
        env2.UnmarshalApiResponse body2 = (api2, none) →
        api2.Properties.Timeseries = e :: later2 →
        (fetchForecast env2 ua2 base2 lat2 lon2 w2).1
          = (fetchForecast env ua base lat lon w).1 := by
  refine ⟨fetchForecast_of_first env ua base lat lon w body api e later hfetch hdec hts, ?_⟩
  intro env2 ua2 base2 lat2 lon2 w2 body2 api2 later2 h1 h2 h3
  rw [fetchForecast_of_first env2 ua2 base2 lat2 lon2 w2 body2 api2 e later2 h1 h2 h3,
    fetchForecast_of_first env ua base lat lon w body api e later hfetch hdec hts]

/-- C10: an error from fetch comes back from fetchGeoCodeList and from
fetchForecast as that same value, with an empty list and with the zero Forecast,
whatever the decoder would have done; it is never the error Unexpected API
format; and every error that fetchForecast returns comes with the zero
Forecast. -/
theorem fetch_error_returned_unchanged (env : Env) (ua base city lat lon : String)
    (w : World) :
    (∀ err, (fetch env ua (base ++ "?q=" ++ city) w).1.2 = some err →
        (fetchGeoCodeList env ua base city w).1 = ([], some err)
        ∧ ∀ decode, (fetchGeoCodeList { env with UnmarshalGeoCodes := decode }
            ua base city w).1 = ([], some err))
    ∧ (∀ err, (fetch env ua (base ++ "?lat=" ++ lat ++ "&lon=" ++ lon) w).1.2 = some err →
        (fetchForecast env ua base lat lon w).1 = (Forecast.zero, some err)
        ∧ err ≠ .New "Unexpected API format"
        ∧ ∀ decode, (fetchForecast { env with UnmarshalApiResponse := decode }
            ua base lat lon w).1 = (Forecast.zero, some err))
    ∧ (∀ fc err, (fetchForecast env ua base lat lon w).1 = (fc, some err) →
        fc = Forecast.zero) := by
  refine ⟨?_, ?_, ?_⟩
  · intro err h
    have hd : ∀ decode, (fetchGeoCodeList { env with UnmarshalGeoCodes := decode }
        ua base city w).1 = ([], some err) := by
      intro decode
      rw [fetchGeoCodeList_fst, fetch_env_geo]
      rcases hf : (fetch env ua (base ++ "?q=" ++ city) w).1 with ⟨b, e⟩
      rw [hf] at h
      simp only at h
      subst h
      rfl
    exact ⟨hd env.UnmarshalGeoCodes, hd⟩
  · intro err h
    have hd : ∀ decode, (fetchForecast { env with UnmarshalApiResponse := decode }
        ua base lat lon w).1 = (Forecast.zero, some err) := by
      intro decode
      rw [fetchForecast_fst, fetch_env_api]
      rcases hf : (fetch env ua (base ++ "?lat=" ++ lat ++ "&lon=" ++ lon) w).1 with ⟨b, e⟩
      rw [hf] at h
      simp only at h
      subst h
      rfl
    refine ⟨hd env.UnmarshalApiResponse, ?_, hd⟩
    obtain ⟨⟨e, he⟩, _⟩ := fetch_error_is_lib env ua _ w err h
    rw [he]
    exact fun hne => GoError.noConfusion hne
  · intro fc err h
    rw [fetchForecast_fst] at h
    rcases hf : (fetch env ua (base ++ "?lat=" ++ lat ++ "&lon=" ++ lon) w).1 with ⟨b, e⟩
    rw [hf] at h
    cases e with
    | some e => simp only [Prod.mk.injEq] at h; exact h.1.symm
    | none =>
      rcases hU : env.UnmarshalApiResponse b with ⟨⟨⟨ts⟩⟩, je⟩
      simp only [hU] at h
      cases je with
      | some e => simp only [Prod.mk.injEq] at h; exact h.1.symm
      | none =>
        cases ts with
        | nil => simp only [Prod.mk.injEq] at h; exact h.1.symm
        | cons e later => simp at h

theorem fetchGeoCodeList_requests (env : Env) (ua base city : String) (w : World) :
    (fetchGeoCodeList env ua base city w).2.requests
      = w.requests ++
          (if env.NewRequest "GET" (base ++ "?q=" ++ city) = none then
            [{ Method := "GET", URL := base ++ "?q=" ++ city, Header := [("User-Agent", ua)] }]
           else []) := by
  rw [fetchGeoCodeList_snd, fetch_requests]
  rfl

theorem fetchGeoCodeList_calls (env : Env) (ua base city : String) (w : World) :
    (fetchGeoCodeList env ua base city w).2.calls
      = w.calls ++ [.fetchGeoCodeList ua base city, .fetch ua (base ++ "?q=" ++ city)] := by
  rw [fetchGeoCodeList_snd, fetch_calls]
  simp [World.enter]

theorem fetchGeoCodeList_stdout (env : Env) (ua base city : String) (w : World) :
    (fetchGeoCodeList env ua base city w).2.stdout = w.stdout := by
  rw [fetchGeoCodeList_snd, fetch_stdout]
  rfl

theorem fetchGeoCodeList_stderr (env : Env) (ua base city : String) (w : World) :
    (fetchGeoCodeList env ua base city w).2.stderr = w.stderr := by
  rw [fetchGeoCodeList_snd, fetch_stderr]
  rfl

theorem fetchForecast_requests (env : Env) (ua base lat lon : String) (w : World) :
    (fetchForecast env ua base lat lon w).2.requests
      = w.requests ++
          (if env.NewRequest "GET" (base ++ "?lat=" ++ lat ++ "&lon=" ++ lon) = none then
            [{ Method := "GET", URL := base ++ "?lat=" ++ lat ++ "&lon=" ++ lon,
               Header := [("User-Agent", ua)] }]
           else []) := by
  rw [fetchForecast_snd, fetch_requests]
  rfl

theorem fetchForecast_calls (env : Env) (ua base lat lon : String) (w : World) :
    (fetchForecast env ua base lat lon w).2.calls
      = w.calls ++ [.fetchForecast ua base lat lon,
          .fetch ua (base ++ "?lat=" ++ lat ++ "&lon=" ++ lon)] := by
  rw [fetchForecast_snd, fetch_calls]
  simp [World.enter]

theorem fetchForecast_stdout (env : Env) (ua base lat lon : String) (w : World) :
    (fetchForecast env ua base lat lon w).2.stdout = w.stdout := by
  rw [fetchForecast_snd, fetch_stdout]
  rfl

theorem fetchForecast_stderr (env : Env) (ua base lat lon : String) (w : World) :
    (fetchForecast env ua base lat lon w).2.stderr = w.stderr := by
  rw [fetchForecast_snd, fetch_stderr]
  rfl

/-- A resolver that reports no error has sent its request. -/
theorem fetch_ok_sent (env : Env) (ua url : String) (w : World)
    (h : (fetch env ua url w).1.2 = none) : env.NewRequest "GET" url = none := by
  unfold fetch at h
  cases hN : env.NewRequest "GET" url with
  | some e => simp [hN] at h
  | none => rfl

theorem fetchGeoCodeList_ok_sent (env : Env) (ua base city : String) (w : World)
    (h : (fetchGeoCodeList env ua base city w).1.2 = none) :
    env.NewRequest "GET" (base ++ "?q=" ++ city) = none := by
  apply fetch_ok_sent env ua _ w
  rw [fetchGeoCodeList_fst] at h
  rcases hf : (fetch env ua (base ++ "?q=" ++ city) w).1 with ⟨b, e⟩
  rw [hf] at h
  cases e with
  | some e => simp at h
  | none => rfl

/-- The shape of every run: how far it got and which world it ended in, up to
the lines written. -/
theorem main_trace (env : Env) :
    (main env).exit ≠ .panicked ∧
    ((¬ (env.ReadInConfig ".env" = none ∧ (getLocationParameter env).2 = none)
        ∧ (main env).world.requests = [] ∧ (main env).world.calls = [])
    ∨ ((env.ReadInConfig ".env" = none ∧ (getLocationParameter env).2 = none)
        ∧ ¬ ((fetchGeoCodeList env (env.GetString "USERAGENT")
              (env.GetString "GEOCODEAPIURL") (getLocationParameter env).1 {}).1.2 = none
            ∧ (fetchGeoCodeList env (env.GetString "USERAGENT")
              (env.GetString "GEOCODEAPIURL") (getLocationParameter env).1 {}).1.1.length = 1)
        ∧ (main env).world.requests
            = (fetchGeoCodeList env (env.GetString "USERAGENT")
                (env.GetString "GEOCODEAPIURL") (getLocationParameter env).1 {}).2.requests
        ∧ (main env).world.calls
            = (fetchGeoCodeList env (env.GetString "USERAGENT")
                (env.GetString "GEOCODEAPIURL") (getLocationParameter env).1 {}).2.calls)
    ∨ ((env.ReadInConfig ".env" = none ∧ (getLocationParameter env).2 = none)
        ∧ ∃ g, (fetchGeoCodeList env (env.GetString "USERAGENT")
              (env.GetString "GEOCODEAPIURL") (getLocationParameter env).1 {}).1 = ([g], none)
          ∧ (main env).world.requests
              = (fetchForecast env (env.GetString "USERAGENT")
                  (env.GetString "FORECASTAPIURL") g.Lat g.Lon
                  (fetchGeoCodeList env (env.GetString "USERAGENT")
                    (env.GetString "GEOCODEAPIURL")
                    (getLocationParameter env).1 {}).2).2.requests
          ∧ (main env).world.calls
              = (fetchForecast env (env.GetString "USERAGENT")
                  (env.GetString "FORECASTAPIURL") g.Lat g.Lon
                  (fetchGeoCodeList env (env.GetString "USERAGENT")
                    (env.GetString "GEOCODEAPIURL")
                    (getLocationParameter env).1 {}).2).2.calls)) := by
  cases hcfg : env.ReadInConfig ".env" with
  | some e =>
    rw [main_config_error env e hcfg]
    simp [Fatalln]
  | none =>
    rcases hcity : getLocationParameter env with ⟨city, perr⟩
    cases perr with
    | some e =>
      have hshort : env.Args.length < 2 := by
        rw [← getLocationParameter_err_iff, hcity]
        simp
      rw [main_missing_arg env hcfg hshort]
      simp [Println]
    | none =>
      rcases hgeo : (fetchGeoCodeList env (env.GetString "USERAGENT")
        (env.GetString "GEOCODEAPIURL") city {}).1 with ⟨l, gerr⟩
      cases gerr with
      | some e =>
        rw [main_geo_error env city l e hcfg hcity hgeo]
        simp [Fatalln]
      | none =>
        match l, hgeo with
        | [], hgeo =>
          rw [main_no_match env city hcfg hcity hgeo]
          simp [Println]
        | [g], hgeo =>
          rcases hfc : (fetchForecast env (env.GetString "USERAGENT")
            (env.GetString "FORECASTAPIURL") g.Lat g.Lon
            (fetchGeoCodeList env (env.GetString "USERAGENT")
              (env.GetString "GEOCODEAPIURL") city {}).2).1 with ⟨fc, ferr⟩
          cases ferr with
          | some e =>
            rw [main_single_error env city g fc e hcfg hcity hgeo hfc]
            simp [Fatalln]
          | none =>
            rw [main_single_ok env city g fc hcfg hcity hgeo hfc]
            simp
        | g1 :: g2 :: rest, hgeo =>
          rw [main_multi env city (g1 :: g2 :: rest) hcfg hcity hgeo (by simp)]
          rw [foldl_Println]
          simp [Println]

theorem fetch_ok (env : Env) (ua url : String) (w : World) (resp : Response)
    (hreq : env.NewRequest "GET" url = none)
    (hdo : env.Do w.requests { Method := "GET", URL := url, Header := [("User-Agent", ua)] }
      = .ok resp)
    (hread : resp.ReadErr = none) :
    (fetch env ua url w).1 = (resp.Body, none) := by
  simp only [fetch, World.enter, setHeader_newRequest, hreq, hdo, hread]

theorem mem_single_or_nil {α : Type} (c : Prop) [Decidable c] (a x : α)
    (h : x ∈ (if c then [a] else [])) : x = a := by
  split at h
  · simpa using h
  · simp at h

/-! ## Requests -/

/-- C9: fetchGeoCodeList calls fetch with base?q=city and fetchForecast calls
fetch with base?lat=lat&lon=lon, the arguments copied in unchanged; the request
sent carries exactly that target and the user agent as its User-Agent header;
and in a run of main every request carries the configured USERAGENT. -/
theorem request_urls_verbatim (env : Env) (ua base city lat lon : String) (w : World) :
    (fetchGeoCodeList env ua base city w).2.calls
        = w.calls ++ [.fetchGeoCodeList ua base city, .fetch ua (base ++ "?q=" ++ city)]
    ∧ (fetchForecast env ua base lat lon w).2.calls
        = w.calls ++ [.fetchForecast ua base lat lon,
            .fetch ua (base ++ "?lat=" ++ lat ++ "&lon=" ++ lon)]
    ∧ (fetchGeoCodeList env ua base city w).2.requests
        = w.requests ++
            (if env.NewRequest "GET" (base ++ "?q=" ++ city) = none then
              [{ Method := "GET", URL := base ++ "?q=" ++ city,
                 Header := [("User-Agent", ua)] }]
             else [])
    ∧ (fetchForecast env ua base lat lon w).2.requests
        = w.requests ++
            (if env.NewRequest "GET" (base ++ "?lat=" ++ lat ++ "&lon=" ++ lon) = none then
              [{ Method := "GET", URL := base ++ "?lat=" ++ lat ++ "&lon=" ++ lon,
                 Header := [("User-Agent", ua)] }]
             else [])
    ∧ (∀ req ∈ (main env).world.requests,
        req.Method = "GET" ∧ req.Header = [("User-Agent", env.GetString "USERAGENT")]) := by
  refine ⟨fetchGeoCodeList_calls env ua base city w, fetchForecast_calls env ua base lat lon w,
    fetchGeoCodeList_requests env ua base city w,
    fetchForecast_requests env ua base lat lon w, ?_⟩
  intro req hreq
  rcases (main_trace env).2 with ⟨_, h, _⟩ | ⟨_, _, h, _⟩ | ⟨_, g, _, h, _⟩
  · rw [h] at hreq
    simp at hreq
  · rw [h, fetchGeoCodeList_requests] at hreq
    simp only [List.nil_append] at hreq
    have := mem_single_or_nil _ _ _ hreq
    simp [this]
  · rw [h, fetchForecast_requests, fetchGeoCodeList_requests] at hreq
    simp only [List.nil_append, List.mem_append] at hreq
    rcases hreq with hreq | hreq
    · have := mem_single_or_nil _ _ _ hreq
      simp [this]
    · have := mem_single_or_nil _ _ _ hreq
      simp [this]

/-! ## The run of main -/

/-- C4: in every run, fetchForecast is called exactly when the configuration
was read, a place query was given, and fetchGeoCodeList returned no error and
a list of length 1; every such call passes the Lat and Lon of that one
candidate; and the index expression geoCodeList[0] never goes out of range. -/
theorem forecast_called_iff_unique_candidate (env : Env) :
    ((∃ ua base lat lon, Call.fetchForecast ua base lat lon ∈ (main env).world.calls)
      ↔ (env.ReadInConfig ".env" = none ∧ (getLocationParameter env).2 = none
          ∧ (fetchGeoCodeList env (env.GetString "USERAGENT")
              (env.GetString "GEOCODEAPIURL") (getLocationParameter env).1 {}).1.2 = none
          ∧ (fetchGeoCodeList env (env.GetString "USERAGENT")
              (env.GetString "GEOCODEAPIURL")
              (getLocationParameter env).1 {}).1.1.length = 1))
    ∧ (∀ ua base lat lon, Call.fetchForecast ua base lat lon ∈ (main env).world.calls →
        ∃ g, (fetchGeoCodeList env (env.GetString "USERAGENT")
              (env.GetString "GEOCODEAPIURL") (getLocationParameter env).1 {}).1 = ([g], none)
          ∧ ua = env.GetString "USERAGENT" ∧ base = env.GetString "FORECASTAPIURL"
          ∧ lat = g.Lat ∧ lon = g.Lon)
    ∧ (main env).exit ≠ .panicked := by
  refine ⟨?_, ?_, (main_trace env).1⟩
  · rcases (main_trace env).2 with ⟨hn, _, h⟩ | ⟨hr, hn, _, h⟩ | ⟨hr, g, hg, _, h⟩
    · rw [h]
      constructor
      · rintro ⟨_, _, _, _, hm⟩
        simp at hm
      · rintro ⟨h1, h2, _⟩
        exact absurd ⟨h1, h2⟩ hn
    · rw [h, fetchGeoCodeList_calls]
      constructor
      · rintro ⟨_, _, _, _, hm⟩
        simp at hm
      · rintro ⟨_, _, h3, h4⟩
        exact absurd ⟨h3, h4⟩ hn
    · rw [h, fetchForecast_calls]
      constructor
      · intro _
        exact ⟨hr.1, hr.2, by rw [hg], by rw [hg]; rfl⟩
      · intro _
        exact ⟨env.GetString "USERAGENT", env.GetString "FORECASTAPIURL", g.Lat, g.Lon,
          by simp⟩
  · intro ua base lat lon hm
    rcases (main_trace env).2 with ⟨_, _, h⟩ | ⟨_, _, _, h⟩ | ⟨_, g, hg, _, h⟩
    · rw [h] at hm
      simp at hm
    · rw [h, fetchGeoCodeList_calls] at hm
      simp at hm
    · rw [h, fetchForecast_calls, fetchGeoCodeList_calls] at hm
      simp at hm
      exact ⟨g, hg, hm.1, hm.2.1, hm.2.2.1, hm.2.2.2⟩

/-- C2: when the configuration was read, the query is city, and fetchGeoCodeList
returns no error and no candidate, main writes the one line of the no-matches
message, nothing to standard error, returns, never calls fetchForecast, and
has sent only the geocode request. -/
theorem main_no_candidates (env : Env) (prog city : String) (rest : List String)
    (hcfg : env.ReadInConfig ".env" = none)
    (hargs : env.Args = prog :: city :: rest)
    (hgeo : (fetchGeoCodeList env (env.GetString "USERAGENT") (env.GetString "GEOCODEAPIURL")
      city {}).1 = ([], none)) :
    (main env).exit = .returned
    ∧ (main env).world.stdout = ["Found no matches, try again with a different parameter."]
    ∧ (main env).world.stderr = []
    ∧ (∀ ua base lat lon, Call.fetchForecast ua base lat lon ∉ (main env).world.calls)
    ∧ (main env).world.requests
        = [{ Method := "GET", URL := env.GetString "GEOCODEAPIURL" ++ "?q=" ++ city,
             Header := [("User-Agent", env.GetString "USERAGENT")] }] := by
  have hcity := getLocationParameter_of_args env prog city rest hargs
  have hsent := fetchGeoCodeList_ok_sent env (env.GetString "USERAGENT")
    (env.GetString "GEOCODEAPIURL") city {} (by rw [hgeo])
  rw [main_no_match env city hcfg hcity hgeo]
  simp [Println, fetchGeoCodeList_stdout, fetchGeoCodeList_stderr, fetchGeoCodeList_calls,
    fetchGeoCodeList_requests, hsent]

/-- C3: when the configuration was read, the query is city, and fetchGeoCodeList
returns no error and more than one candidate, main writes the heading and then
the Display_name of every candidate, one per line, in the order of the list,
returns, never calls fetchForecast, and has sent only the geocode request. -/
theorem main_many_candidates (env : Env) (prog city : String) (rest : List String)
    (l : List GeoCode)
    (hcfg : env.ReadInConfig ".env" = none)
    (hargs : env.Args = prog :: city :: rest)
    (hgeo : (fetchGeoCodeList env (env.GetString "USERAGENT") (env.GetString "GEOCODEAPIURL")
      city {}).1 = (l, none))
    (hN : 1 < l.length) :
    (main env).exit = .returned
    ∧ (main env).world.stdout
        = "Found multiple matches for your search. Try again with one of the following:"
            :: l.map (fun val => val.Display_name)
    ∧ (main env).world.stderr = []
    ∧ (∀ ua base lat lon, Call.fetchForecast ua base lat lon ∉ (main env).world.calls)
    ∧ (main env).world.requests
        = [{ Method := "GET", URL := env.GetString "GEOCODEAPIURL" ++ "?q=" ++ city,
             Header := [("User-Agent", env.GetString "USERAGENT")] }] := by
  have hcity := getLocationParameter_of_args env prog city rest hargs
  have hsent := fetchGeoCodeList_ok_sent env (env.GetString "USERAGENT")
    (env.GetString "GEOCODEAPIURL") city {} (by rw [hgeo])
  rw [main_multi env city l hcfg hcity hgeo hN, foldl_Println]
  simp [Println, fetchGeoCodeList_stdout, fetchGeoCodeList_stderr, fetchGeoCodeList_calls,
    fetchGeoCodeList_requests, hsent]

/-- C1: when the configuration was read, the query is city, the answer to the
geocode request decodes without error to the one candidate g, and the answer to
the forecast request for g decodes without error to a time series that starts
with e, main writes exactly the five lines below, built from city and from the
fields of e, writes nothing to standard error, and returns. -/
theorem main_prints_first_entry (env : Env) (prog city : String) (rest : List String)
    (g : GeoCode) (geoResp fcResp : Response) (api : ApiResponse) (e : Entry)
    (later : List Entry)
    (hcfg : env.ReadInConfig ".env" = none)
    (hargs : env.Args = prog :: city :: rest)
    (hgeoReq : env.NewRequest "GET" (env.GetString "GEOCODEAPIURL" ++ "?q=" ++ city) = none)
    (hgeoDo : env.Do []
      { Method := "GET", URL := env.GetString "GEOCODEAPIURL" ++ "?q=" ++ city,
        Header := [("User-Agent", env.GetString "USERAGENT")] } = .ok geoResp)
    (hgeoRead : geoResp.ReadErr = none)
    (hgeoDec : env.UnmarshalGeoCodes geoResp.Body = ([g], none))
    (hfcReq : env.NewRequest "GET"
      (env.GetString "FORECASTAPIURL" ++ "?lat=" ++ g.Lat ++ "&lon=" ++ g.Lon) = none)
    (hfcDo : env.Do
      [{ Method := "GET", URL := env.GetString "GEOCODEAPIURL" ++ "?q=" ++ city,
         Header := [("User-Agent", env.GetString "USERAGENT")] }]
      { Method := "GET",
        URL := env.GetString "FORECASTAPIURL" ++ "?lat=" ++ g.Lat ++ "&lon=" ++ g.Lon,
        Header := [("User-Agent", env.GetString "USERAGENT")] } = .ok fcResp)
    (hfcRead : fcResp.ReadErr = none)
    (hfcDec : env.UnmarshalApiResponse fcResp.Body = (api, none))
    (hts : api.Properties.Timeseries = e :: later) :
    (main env).exit = .returned
    ∧ (main env).world.stdout =
        [ "Expected forecast for " ++ city,
          "At " ++ e.Time,
          "Temp: " ++ floatToString env e.Data.Instant.Details.Air_temperature ++ "°C",
          "Windspeed: " ++ floatToString env e.Data.Instant.Details.Wind_speed ++ "m/s",
          "Precipitation within the next hour: "
            ++ floatToString env e.Data.Next_1_hours.Details.Precipitation_amount ++ "mm" ]
    ∧ (main env).world.stderr = [] := by
  have hcity := getLocationParameter_of_args env prog city rest hargs
  have hgeo : (fetchGeoCodeList env (env.GetString "USERAGENT")
      (env.GetString "GEOCODEAPIURL") city {}).1 = ([g], none) := by
    rw [fetchGeoCodeList_fst, fetch_ok env _ _ {} geoResp hgeoReq hgeoDo hgeoRead]
    simp only [hgeoDec]
  have hreqs : (fetchGeoCodeList env (env.GetString "USERAGENT")
      (env.GetString "GEOCODEAPIURL") city {}).2.requests
      = [{ Method := "GET", URL := env.GetString "GEOCODEAPIURL" ++ "?q=" ++ city,
           Header := [("User-Agent", env.GetString "USERAGENT")] }] := by
    rw [fetchGeoCodeList_requests]
    simp [hgeoReq]
  have hfc := fetchForecast_of_first env (env.GetString "USERAGENT")
    (env.GetString "FORECASTAPIURL") g.Lat g.Lon
    (fetchGeoCodeList env (env.GetString "USERAGENT") (env.GetString "GEOCODEAPIURL")
      city {}).2 fcResp.Body api e later
    (fetch_ok env _ _ _ fcResp hfcReq (by rw [hreqs]; exact hfcDo) hfcRead) hfcDec hts
  rw [main_single_ok env city g _ hcfg hcity hgeo hfc]
  simp [fetchForecast_stdout, fetchForecast_stderr, fetchGeoCodeList_stdout,
    fetchGeoCodeList_stderr, floatToString_eq]

/-- C7 as amended: when the configuration was read and os.Args has fewer than
two elements, main writes the usage hint, returns, sends no request and
calls no resolver; and getLocationParameter returns an error exactly when
os.Args has fewer than two elements, and os.Args[1] with no error otherwise. -/
theorem main_missing_argument (env : Env)
    (hcfg : env.ReadInConfig ".env" = none)
    (hargs : env.Args.length < 2) :
    main env =
      { exit := .returned
        world :=
          { stdout := ["Missing parameter. Try running the following: ./weather \"Stockholm, Stockholms kommun, Stockholm County, 111 29, Sweden\""]
            stderr := []
            requests := []
            calls := [] } }
    ∧ (∀ env2 : Env,
        ((getLocationParameter env2).2 ≠ none ↔ env2.Args.length < 2)
        ∧ (¬ env2.Args.length < 2 →
            ∃ city, env2.Args[1]? = some city ∧ getLocationParameter env2 = (city, none))) := by
  refine ⟨?_, ?_⟩
  · rw [main_missing_arg env hcfg hargs]
    simp [Println]
  · intro env2
    refine ⟨getLocationParameter_err_iff env2, ?_⟩
    intro h
    match hA : env2.Args with
    | [] => simp [hA] at h
    | [_] => simp [hA] at h
    | prog :: city :: rest =>
      exact ⟨city, by simp, getLocationParameter_of_args env2 prog city rest hA⟩

/-- C8 as amended: when the configuration was read, the query is city, the
answer to the geocode request decodes without error to the one candidate g, and
the answer to the forecast request for g is read without error and leaves an
empty time series in the decoded value, main ends in the fatal exit with the
message of the forecast stage on standard error and writes nothing to standard
output. -/
theorem main_empty_series_fatal (env : Env) (prog city : String) (rest : List String)
    (g : GeoCode) (geoResp fcResp : Response)
    (hcfg : env.ReadInConfig ".env" = none)
    (hargs : env.Args = prog :: city :: rest)
    (hgeoReq : env.NewRequest "GET" (env.GetString "GEOCODEAPIURL" ++ "?q=" ++ city) = none)
    (hgeoDo : env.Do []
      { Method := "GET", URL := env.GetString "GEOCODEAPIURL" ++ "?q=" ++ city,
        Header := [("User-Agent", env.GetString "USERAGENT")] } = .ok geoResp)
    (hgeoRead : geoResp.ReadErr = none)
    (hgeoDec : env.UnmarshalGeoCodes geoResp.Body = ([g], none))
    (hfcReq : env.NewRequest "GET"
      (env.GetString "FORECASTAPIURL" ++ "?lat=" ++ g.Lat ++ "&lon=" ++ g.Lon) = none)
    (hfcDo : env.Do
      [{ Method := "GET", URL := env.GetString "GEOCODEAPIURL" ++ "?q=" ++ city,
         Header := [("User-Agent", env.GetString "USERAGENT")] }]
      { Method := "GET",
        URL := env.GetString "FORECASTAPIURL" ++ "?lat=" ++ g.Lat ++ "&lon=" ++ g.Lon,
        Header := [("User-Agent", env.GetString "USERAGENT")] } = .ok fcResp)
    (hfcRead : fcResp.ReadErr = none)
    (hts : (env.UnmarshalApiResponse fcResp.Body).1.Properties.Timeseries = []) :
    (main env).exit = .fatal
    ∧ (main env).world.stderr = ["An error occured while fetching forecast"]
    ∧ (main env).world.stdout = [] := by
  have hcity := getLocationParameter_of_args env prog city rest hargs
  have hgeo : (fetchGeoCodeList env (env.GetString "USERAGENT")
      (env.GetString "GEOCODEAPIURL") city {}).1 = ([g], none) := by
    rw [fetchGeoCodeList_fst, fetch_ok env _ _ {} geoResp hgeoReq hgeoDo hgeoRead]
    simp only [hgeoDec]
  have hreqs : (fetchGeoCodeList env (env.GetString "USERAGENT")
      (env.GetString "GEOCODEAPIURL") city {}).2.requests
      = [{ Method := "GET", URL := env.GetString "GEOCODEAPIURL" ++ "?q=" ++ city,
           Header := [("User-Agent", env.GetString "USERAGENT")] }] := by
    rw [fetchGeoCodeList_requests]
    simp [hgeoReq]
  have hfc : (fetchForecast env (env.GetString "USERAGENT")
      (env.GetString "FORECASTAPIURL") g.Lat g.Lon
      (fetchGeoCodeList env (env.GetString "USERAGENT") (env.GetString "GEOCODEAPIURL")
        city {}).2).1 = (Forecast.zero, some (.New "Unexpected API format")) := by
    rw [fetchForecast_fst,
      fetch_ok env _ _ _ fcResp hfcReq (by rw [hreqs]; exact hfcDo) hfcRead]
    rcases hU : env.UnmarshalApiResponse fcResp.Body with ⟨api, je⟩
    rw [hU] at hts
    cases je with
    | some e => simp only [hU]
    | none =>
      simp only at hts
      simp only [hU, hts]
  rw [main_single_error env city g _ _ hcfg hcity hgeo hfc]
  simp [Fatalln, fetchForecast_stdout, fetchForecast_stderr, fetchGeoCodeList_stdout,
    fetchGeoCodeList_stderr]

/-! ## Instances on the sample environments -/

set_option maxRecDepth 100000

/-- The sample run for Stockholm: the five lines with 5.2, 3.1 and 0. -/
theorem main_prints_first_entry_witness :
    (main sampleEnv).exit = .returned
    ∧ (main sampleEnv).world.stdout =
        [ "Expected forecast for Stockholm",
          "At 2024-01-01T12:00:00Z",
          "Temp: 5.2°C",
          "Windspeed: 3.1m/s",
          "Precipitation within the next hour: 0mm" ]
    ∧ (main sampleEnv).world.stderr = [] :=
  main_prints_first_entry sampleEnv "./weather" "Stockholm" [] stockholm
    ⟨geoBody, none⟩ ⟨forecastBody, none⟩ ⟨⟨[noonEntry]⟩⟩ noonEntry []
    rfl rfl rfl rfl rfl rfl rfl rfl rfl rfl rfl

/-- The sample run with no candidate. -/
theorem main_no_candidates_witness :
    (main noMatchEnv).exit = .returned
    ∧ (main noMatchEnv).world.stdout
        = ["Found no matches, try again with a different parameter."]
    ∧ (main noMatchEnv).world.stderr = []
    ∧ (∀ ua base lat lon, Call.fetchForecast ua base lat lon ∉ (main noMatchEnv).world.calls)
    ∧ (main noMatchEnv).world.requests
        = [{ Method := "GET", URL := "https://geo.example/search?q=Stockholm",
             Header := [("User-Agent", "go-forecast/1.0")] }] :=
  main_no_candidates noMatchEnv "./weather" "Stockholm" [] rfl rfl (by decide)

/-- The sample run with two candidates. -/
theorem main_many_candidates_witness :
    (main twoMatchEnv).exit = .returned
    ∧ (main twoMatchEnv).world.stdout
        = [ "Found multiple matches for your search. Try again with one of the following:",
            "Stockholm, Sweden", "Stockholm, Iowa" ]
    ∧ (main twoMatchEnv).world.stderr = []
    ∧ (∀ ua base lat lon, Call.fetchForecast ua base lat lon ∉ (main twoMatchEnv).world.calls)
    ∧ (main twoMatchEnv).world.requests
        = [{ Method := "GET", URL := "https://geo.example/search?q=Stockholm",
             Header := [("User-Agent", "go-forecast/1.0")] }] :=
  main_many_candidates twoMatchEnv "./weather" "Stockholm" [] twoCandidates rfl rfl
    (by decide) (by decide)

/-- The sample forecast answer with an empty time series is reported as
Unexpected API format. -/
theorem fetchForecast_unexpected_format_iff_witness :
    (fetchForecast emptySeriesEnv "go-forecast/1.0" "https://weather.example/compact"
      "59.33" "18.06" {}).1.2 = some (.New "Unexpected API format") :=
  (fetchForecast_unexpected_format_iff emptySeriesEnv "go-forecast/1.0"
    "https://weather.example/compact" "59.33" "18.06" {} emptySeriesBody
    (by decide)).1.mpr (Or.inr (by decide))

/-- The sample forecast answer yields the fields of its one entry. -/
theorem fetchForecast_first_entry_witness :
    (fetchForecast sampleEnv "go-forecast/1.0" "https://weather.example/compact"
      "59.33" "18.06" {}).1
      = ({ Timestamp := "2024-01-01T12:00:00Z"
           AirTemperature := ⟨1084647014⟩
           WindSpeed := ⟨1078355558⟩
           Precipitation := ⟨0⟩ }, none) :=
  (fetchForecast_first_entry sampleEnv "go-forecast/1.0" "https://weather.example/compact"
    "59.33" "18.06" {} forecastBody ⟨⟨[noonEntry]⟩⟩ noonEntry []
    (by decide) rfl rfl).1

/-- C7 fails as stated: with no place query and no readable configuration file
the run ends in the fatal exit and never writes the usage hint. -/
theorem usage_hint_needs_config_counterexample :
    noConfigEnv.Args.length < 2
    ∧ (main noConfigEnv).exit = .fatal
    ∧ (main noConfigEnv).world.stderr = ["Error reading .env file"]
    ∧ (main noConfigEnv).world.stdout = [] := by
  decide

/-- The sample run with no place query and a readable configuration file. -/
theorem main_missing_argument_witness :
    main noArgEnv =
      { exit := .returned
        world :=
          { stdout := ["Missing parameter. Try running the following: ./weather \"Stockholm, Stockholms kommun, Stockholm County, 111 29, Sweden\""]
            stderr := []
            requests := []
            calls := [] } } :=
  (main_missing_argument noArgEnv rfl (by decide)).1

/-- C8 fails as stated: every request other than the geocode request is
answered with an empty time series, the geocode stage finds no candidate, and
the run returns with the no-matches line instead of the fatal forecast error. -/
theorem empty_series_no_candidate_counterexample :
    (∀ sent req, req.URL ≠ "https://geo.example/search?q=Stockholm" →
        noMatchEnv.Do sent req = .ok ⟨emptySeriesBody, none⟩)
    ∧ noMatchEnv.UnmarshalApiResponse emptySeriesBody = (⟨⟨[]⟩⟩, none)
    ∧ (main noMatchEnv).exit = .returned
    ∧ (main noMatchEnv).world.stderr = []
    ∧ (main noMatchEnv).world.stdout
        = ["Found no matches, try again with a different parameter."] := by
  refine ⟨?_, by decide, by decide, by decide, by decide⟩
  intro sent req h
  simp [noMatchEnv, h]

/-- The sample run with one candidate and an empty time series. -/
theorem main_empty_series_fatal_witness :
    (main emptySeriesEnv).exit = .fatal
    ∧ (main emptySeriesEnv).world.stderr = ["An error occured while fetching forecast"]
    ∧ (main emptySeriesEnv).world.stdout = [] :=
  main_empty_series_fatal emptySeriesEnv "./weather" "Stockholm" [] stockholm
    ⟨geoBody, none⟩ ⟨emptySeriesBody, none⟩ rfl rfl rfl rfl rfl rfl rfl rfl rfl (by decide)

/-- Without network both resolvers hand back the transport error and no data. -/
theorem fetch_error_returned_unchanged_witness :
    (fetchGeoCodeList offlineEnv "go-forecast/1.0" "https://geo.example/search"
      "Stockholm" {}).1
      = ([], some (.lib ⟨"dial tcp: network is unreachable"⟩))
    ∧ (fetchForecast offlineEnv "go-forecast/1.0" "https://weather.example/compact"
      "59.33" "18.06" {}).1
      = (Forecast.zero, some (.lib ⟨"dial tcp: network is unreachable"⟩)) :=
  ⟨((fetch_error_returned_unchanged offlineEnv "go-forecast/1.0"
      "https://geo.example/search" "Stockholm" "59.33" "18.06" {}).1 _ (by decide)).1,
   ((fetch_error_returned_unchanged offlineEnv "go-forecast/1.0"
      "https://weather.example/compact" "Stockholm" "59.33" "18.06" {}).2.1 _
      (by decide)).1⟩

end GoForecast
